import Mathlib

/-!
Verification of the scoring engine of `scripts/pr-metrics.mjs`.

The JavaScript source is shallowly embedded: JS numbers are modelled as
rationals (`ℚ`), counts as naturals, instants as integer milliseconds
since the epoch, and the time-zone conversion (`Intl.DateTimeFormat`,
function `toZonedParts`) as an abstract function from an instant to the
local calendar parts actually consumed by the clock (weekday, hour,
minute).
-/

namespace PRMetrics

/-- A row of a threshold table: `{min?, max?, score}` in the source. -/
structure Range where
  min : Option ℚ
  max : Option ℚ
  score : ℤ
deriving DecidableEq, Repr

/-- `okMin` of `scoreByThresholds`: `(t.min === undefined) || (value >= t.min)`. -/
def okMin (value : ℚ) (t : Range) : Bool :=
  match t.min with
  | none => true
  | some m => decide (m ≤ value)

/-- `okMax` of `scoreByThresholds`: `(t.max === undefined) || (value <= t.max)`. -/
def okMax (value : ℚ) (t : Range) : Bool :=
  match t.max with
  | none => true
  | some M => decide (value ≤ M)

/-- Both bounds admit the value (`okMin && okMax` in the source loop). -/
def admits (value : ℚ) (t : Range) : Bool :=
  okMin value t && okMax value t

/-- `scoreByThresholds(value, thresholdsAsc)`: scan the rows in order,
return the score of the first row whose bounds admit the value, else 1. -/
def scoreByThresholds (value : ℚ) : List Range → ℤ
  | [] => 1
  | t :: rest => if okMin value t && okMax value t then t.score else scoreByThresholds value rest

/-- `{score, weight}` item fed to `weightedAvg`. -/
structure WeightedItem where
  score : ℚ
  weight : ℚ
deriving DecidableEq, Repr

/-- `weightedAvg(items)`: `Σ(score·weight)/Σ(weight)`, or 0 when the
total weight is 0 (the `den ? num / den : 0` in the source). -/
def weightedAvg (items : List WeightedItem) : ℚ :=
  let num := items.foldl (fun s it => s + it.score * it.weight) 0
  let den := items.foldl (fun s it => s + it.weight) 0
  if den = 0 then 0 else num / den

/-- JS `Math.round` on the (non-negative) values the script rounds:
round half up. -/
def mathRound (x : ℚ) : ℤ := Int.floor (x + 1/2)

/-- `thresholdsCommitsCount()`. -/
def thresholdsCommitsCount : List Range :=
  [⟨some 8, none, 1⟩,
   ⟨some 6, some 7, 2⟩,
   ⟨some 5, some 5, 3⟩,
   ⟨some 3, some 4, 4⟩,
   ⟨some 1, some 2, 5⟩]

/-- `thresholdsAvgFilesPerCommit(legacy)`. -/
def thresholdsAvgFilesPerCommit (legacy : Bool) : List Range :=
  if !legacy then
    [⟨some 40, none, 1⟩,
     ⟨some 30, some 39.999, 2⟩,
     ⟨some 20, some 29.999, 3⟩,
     ⟨some 15, some 19.999, 4⟩,
     ⟨none, some 14.999, 5⟩]
  else
    [⟨some 60, none, 1⟩,
     ⟨some 50, some 59.999, 2⟩,
     ⟨some 40, some 49.999, 3⟩,
     ⟨some 35, some 39.999, 4⟩,
     ⟨none, some 34.999, 5⟩]

/-- `thresholdsAvgLinesPerCommit(legacy)`. -/
def thresholdsAvgLinesPerCommit (legacy : Bool) : List Range :=
  if !legacy then
    [⟨some 350, none, 1⟩,
     ⟨some 250, some 349.999, 2⟩,
     ⟨some 150, some 249.999, 3⟩,
     ⟨some 100, some 149.999, 4⟩,
     ⟨none, some 99.999, 5⟩]
  else
    [⟨some 400, none, 1⟩,
     ⟨some 300, some 399.999, 2⟩,
     ⟨some 200, some 299.999, 3⟩,
     ⟨some 150, some 199.999, 4⟩,
     ⟨none, some 149.999, 5⟩]

/-- `thresholdsLinesModified(legacy)`. -/
def thresholdsLinesModified (legacy : Bool) : List Range :=
  if !legacy then
    [⟨some 1200.0001, none, 1⟩,
     ⟨some 500.0001, some 1200, 2⟩,
     ⟨some 300.0001, some 500, 3⟩,
     ⟨some 50.0001, some 300, 4⟩,
     ⟨none, some 50, 5⟩]
  else
    [⟨some 1200.0001, none, 1⟩,
     ⟨some 700.0001, some 1200, 2⟩,
     ⟨some 500.0001, some 700, 3⟩,
     ⟨some 100.0001, some 500, 4⟩,
     ⟨none, some 100, 5⟩]

/-- The table `thresholdsCloseTimeHours` returns when `complexity > 3`. -/
def closeTimeComplexTable : List Range :=
  [⟨some 32.0001, none, 1⟩,
   ⟨some 20.0001, some 32, 2⟩,
   ⟨some 8.0001, some 20, 3⟩,
   ⟨some 4.0001, some 8, 4⟩,
   ⟨none, some 4, 5⟩]

/-- The table `thresholdsCloseTimeHours` returns when `complexity <= 3`. -/
def closeTimeSimpleTable : List Range :=
  [⟨some 32.0001, none, 1⟩,
   ⟨none, some 0.5, 1⟩,
   ⟨some 20.0001, some 32, 2⟩,
   ⟨some 0.5001, some 1, 2⟩,
   ⟨some 8.0001, some 20, 3⟩,
   ⟨some 4.0001, some 8, 4⟩,
   ⟨none, some 4, 5⟩]

/-- `thresholdsCloseTimeHours(complexity)` (`const complex = complexity > 3`). -/
def thresholdsCloseTimeHours (complexity : ℤ) : List Range :=
  if 3 < complexity then closeTimeComplexTable else closeTimeSimpleTable

/-- `thresholdsObservations(complexity)`. -/
def thresholdsObservations (complexity : ℤ) : List Range :=
  if 1 ≤ complexity ∧ complexity < 3 then
    [⟨none, some 0, 1⟩,
     ⟨some 1, some 1, 2⟩,
     ⟨some 2, some 5, 3⟩,
     ⟨some 6, some 10, 4⟩,
     ⟨some 11, none, 5⟩]
  else if 3 ≤ complexity ∧ complexity < 4 then
    [⟨none, some 0, 2⟩,
     ⟨some 1, some 2, 3⟩,
     ⟨some 3, none, 4⟩]
  else if 4 ≤ complexity ∧ complexity < 5 then
    [⟨none, some 0, 3⟩,
     ⟨some 1, none, 4⟩,
     ⟨some 2, none, 5⟩]
  else
    [⟨none, some 0, 4⟩,
     ⟨some 1, none, 5⟩]

/-- `s_commitsCount` of the main pipeline. -/
def s_commitsCount (totalCommits : ℕ) : ℤ :=
  scoreByThresholds (totalCommits : ℚ) thresholdsCommitsCount

/-- `s_avgFiles` of the main pipeline. -/
def s_avgFiles (legacy : Bool) (avgFilesPerCommit : ℚ) : ℤ :=
  scoreByThresholds avgFilesPerCommit (thresholdsAvgFilesPerCommit legacy)

/-- `s_avgLines` of the main pipeline. -/
def s_avgLines (legacy : Bool) (avgLinesPerCommit : ℚ) : ℤ :=
  scoreByThresholds avgLinesPerCommit (thresholdsAvgLinesPerCommit legacy)

/-- `s_linesModified` of the main pipeline. -/
def s_linesModified (legacy : Bool) (linesModified : ℚ) : ℤ :=
  scoreByThresholds linesModified (thresholdsLinesModified legacy)

/-- `s_commitStandard`: the ratio-to-score chain of conditionals. -/
def s_commitStandard (commitStandardPct : ℚ) : ℤ :=
  if commitStandardPct ≥ 0.9 then 5
  else if commitStandardPct ≥ 0.75 then 4
  else if commitStandardPct ≥ 0.6 then 3
  else if commitStandardPct ≥ 0.4 then 2
  else 1

/-- `s_closeTime` of the main pipeline. -/
def s_closeTime (complexity : ℤ) (closeHours : ℚ) : ℤ :=
  scoreByThresholds closeHours (thresholdsCloseTimeHours complexity)

/-- `s_observations` of the main pipeline. -/
def s_observations (complexity : ℤ) (observations : ℕ) : ℤ :=
  scoreByThresholds (observations : ℚ) (thresholdsObservations complexity)

/-- `s_approvals`: the approvals chain of conditionals. -/
def s_approvals (approvalsCount : ℕ) : ℤ :=
  if approvalsCount > 2 then 5
  else if approvalsCount = 2 then 4
  else if approvalsCount = 1 then 3
  else if approvalsCount = 0 then 2
  else 1

/-- `s_declined` (simple mode): `declinedThisPr === 0 ? 5 : 3`. -/
def s_declined (declinedThisPr : ℕ) : ℤ :=
  if declinedThisPr = 0 then 5 else 3

/-- `s_branch`: `branchOk ? 5 : 2`. -/
def s_branch (branchOk : Bool) : ℤ :=
  if branchOk then 5 else 2

/-- `complexity`: 5 when the change is flagged non-functional, otherwise
the clamped rounding of the weighted average of the four size scores. -/
def complexity (isFunctional : Bool) (sCC sAF sAL sLM : ℤ) : ℤ :=
  if !isFunctional then 5
  else
    min 5 (max 1 (mathRound (weightedAvg
      [⟨(sCC : ℚ), 0.20⟩, ⟨(sAF : ℚ), 0.25⟩, ⟨(sAL : ℚ), 0.25⟩, ⟨(sLM : ℚ), 0.30⟩])))

/-- `M1` category aggregate. -/
def M1 (sCC sAF sAL sCS : ℤ) : ℚ :=
  weightedAvg [⟨(sCC : ℚ), 0.30⟩, ⟨(sAF : ℚ), 0.20⟩, ⟨(sAL : ℚ), 0.20⟩, ⟨(sCS : ℚ), 0.30⟩]

/-- `M2` category aggregate. -/
def M2 (sAp sDe sBr : ℤ) : ℚ :=
  weightedAvg [⟨(sAp : ℚ), 0.50⟩, ⟨(sDe : ℚ), 0.20⟩, ⟨(sBr : ℚ), 0.30⟩]

/-- `M3` category aggregate. -/
def M3 (sCT sLM : ℤ) : ℚ :=
  weightedAvg [⟨(sCT : ℚ), 0.75⟩, ⟨(sLM : ℚ), 0.25⟩]

/-- `M4` category aggregate. -/
def M4 (sOb : ℤ) : ℚ :=
  weightedAvg [⟨(sOb : ℚ), 1.00⟩]

/-- `maturity`: the weighted sum of the four categories minus the `m5Penalty`
(0.5 exactly when the PR is still open and older than 7 days). -/
def maturity (m1 m2 m3 m4 : ℚ) (stateOpen : Bool) (ageDays : ℚ) : ℚ :=
  let base := m1 * 0.25 + m2 * 0.15 + m3 * 0.35 + m4 * 0.25
  let m5Penalty : ℚ := if stateOpen = true ∧ ageDays > 7 then 0.5 else 0
  base - m5Penalty

/-! ## Business-hours clock

`toZonedParts` (built on `Intl.DateTimeFormat`) is modelled as an abstract
function `tzf : ℤ → ZonedParts` from an instant (ms since epoch) to the
local parts the clock consumes.  Instants are integer milliseconds; the
config minutes `ws`, `we`, `cutoffMin` are the `minutesSinceMidnight` of
the parsed `WORK_HOURS` / `MORNING_CUTOFF` strings. -/

/-- The fields of a `toZonedParts` result used by `businessMinutesBetween`. -/
structure ZonedParts where
  weekday : String
  hour : ℤ
  minute : ℤ
deriving DecidableEq, Repr

/-- `isWeekday(weekday)`: membership of the short weekday name in Mon..Fri. -/
def isWeekday (weekday : String) : Bool :=
  ["Mon", "Tue", "Wed", "Thu", "Fri"].contains weekday

/-- `minutesSinceMidnight(h, m)`. -/
def minutesSinceMidnight (h m : ℤ) : ℤ := h * 60 + m

/-- `clamp(x, a, b) = Math.max(a, Math.min(b, x))`. -/
def clamp (x a b : ℤ) : ℤ := max a (min b x)

/-- Local minutes-since-midnight of an instant under the abstract zone map. -/
def localMinutes (tzf : ℤ → ZonedParts) (t : ℤ) : ℤ :=
  minutesSinceMidnight (tzf t).hour (tzf t).minute

/-- `startInWork` of `businessMinutesBetween`:
`isWeekday(sp.weekday) && startMin >= ws && startMin <= we`. -/
def startsInWork (tzf : ℤ → ZonedParts) (ws we startUtc : ℤ) : Bool :=
  isWeekday (tzf startUtc).weekday
    && decide (ws ≤ localMinutes tzf startUtc)
    && decide (localMinutes tzf startUtc ≤ we)

/-- The `while (cur < endUtc)` walk of `businessMinutesBetween`, stepping in
1-hour chunks.  The walk advances by `min(endUtc - cur, 3600000) ≥ 1` ms per
iteration, so a fuel of `(endUtc - startUtc)` ms strictly bounds the number
of iterations; `businessMinutesBetween` supplies exactly that fuel. -/
def bmbLoop (tzf : ℤ → ZonedParts) (ws we cutoffMin : ℤ) (startInWork : Bool)
    (endUtc : ℤ) : ℕ → ℤ → ℤ → ℤ
  | 0, _, total => total
  | Nat.succ fuel, cur, total =>
    if cur < endUtc then
      let next := min endUtc (cur + 3600000)
      let p := tzf cur
      let pNext := tzf next
      let step : ℤ :=
        if isWeekday p.weekday then
          let curMin := minutesSinceMidnight p.hour p.minute
          let nextMin := minutesSinceMidnight pNext.hour pNext.minute
          let effectiveStart := if startInWork then ws else max ws cutoffMin
          let a := clamp curMin effectiveStart we
          let b := clamp nextMin effectiveStart we
          if a < b then b - a else 0
        else 0
      bmbLoop tzf ws we cutoffMin startInWork endUtc fuel next (total + step)
    else total

/-- `businessMinutesBetween(startUtc, endUtc, tz)`: 0 for a non-positive
span; the whole rounded wall-clock span when the start is outside the work
window and the end's local time-of-day is at or before the morning cutoff;
otherwise the 1-hour-chunk walk. -/
def businessMinutesBetween (tzf : ℤ → ZonedParts) (ws we cutoffMin startUtc endUtc : ℤ) : ℤ :=
  if endUtc ≤ startUtc then 0
  else if !startsInWork tzf ws we startUtc && decide (localMinutes tzf endUtc ≤ cutoffMin) then
    mathRound (((endUtc - startUtc : ℤ) : ℚ) / 60000)
  else
    bmbLoop tzf ws we cutoffMin (startsInWork tzf ws we startUtc) endUtc
      (endUtc - startUtc).toNat startUtc 0

/-- The slice-start instants of the spec's walk: `startUtc`, then steps of
one hour (shorter at the tail), up to `endUtc`.  Same fuel convention as
`bmbLoop`. -/
def sliceStarts (endUtc : ℤ) : ℕ → ℤ → List ℤ
  | 0, _ => []
  | Nat.succ fuel, cur =>
    if cur < endUtc then cur :: sliceStarts endUtc fuel (min endUtc (cur + 3600000)) else []

/-- Modelled from the spec's walk description: the contribution of the slice
starting at `cur` — on a work day, the width (clamped to `≥ 0`) of the
overlap of `[slice-start-minute, slice-end-minute]` with
`[effective-work-start, work-end-minute]`; 0 on a non-work day. -/
def sliceOverlap (tzf : ℤ → ZonedParts) (effectiveStart we endUtc cur : ℤ) : ℤ :=
  if isWeekday (tzf cur).weekday then
    max 0 (min (localMinutes tzf (min endUtc (cur + 3600000))) we
      - max (localMinutes tzf cur) effectiveStart)
  else 0

/-- Modelled from the spec's walk description: total business minutes as the
sum of per-slice overlap widths, with the effective work start raised to the
cutoff exactly when the original start instant was outside the work window. -/
def specBusinessMinutes (tzf : ℤ → ZonedParts) (ws we cutoffMin startUtc endUtc : ℤ) : ℤ :=
  let effectiveStart := if startsInWork tzf ws we startUtc then ws else max ws cutoffMin
  ((sliceStarts endUtc (endUtc - startUtc).toNat startUtc).map
    (sliceOverlap tzf effectiveStart we endUtc)).sum

/-- Short weekday name from a 0=Sun .. 6=Sat index (model-side helper). -/
def weekdayName (d : ℤ) : String :=
  if d = 0 then "Sun"
  else if d = 1 then "Mon"
  else if d = 2 then "Tue"
  else if d = 3 then "Wed"
  else if d = 4 then "Thu"
  else if d = 5 then "Fri"
  else "Sat"

/-- A concrete fixed-offset instantiation of the abstract zone map, used to
evaluate the clock on concrete instants (day 0 of the epoch is a Thursday). -/
def fixedOffsetTZ (offsetMinutes : ℤ) (t : ℤ) : ZonedParts :=
  let mins := (t + offsetMinutes * 60000) / 60000
  let minOfDay := mins % 1440
  ⟨weekdayName ((mins / 1440 + 4) % 7), minOfDay / 60, minOfDay % 60⟩

/-! ## Helper lemmas on the threshold scorer -/

theorem scoreByThresholds_cons (value : ℚ) (t : Range) (rest : List Range) :
    scoreByThresholds value (t :: rest)
      = if admits value t then t.score else scoreByThresholds value rest := rfl

theorem score_cons_pos {value : ℚ} {t : Range} {rest : List Range}
    (h : admits value t = true) : scoreByThresholds value (t :: rest) = t.score := by
  rw [scoreByThresholds_cons, if_pos h]

theorem score_cons_neg {value : ℚ} {t : Range} {rest : List Range}
    (h : admits value t = false) :
    scoreByThresholds value (t :: rest) = scoreByThresholds value rest := by
  rw [scoreByThresholds_cons]
  simp [h]

theorem admits_mm {value a b : ℚ} {s : ℤ} (h1 : a ≤ value) (h2 : value ≤ b) :
    admits value ⟨some a, some b, s⟩ = true := by
  simp [admits, okMin, okMax, h1, h2]

theorem admits_mn {value a : ℚ} {s : ℤ} (h1 : a ≤ value) :
    admits value ⟨some a, none, s⟩ = true := by
  simp [admits, okMin, okMax, h1]

theorem admits_nm {value b : ℚ} {s : ℤ} (h2 : value ≤ b) :
    admits value ⟨none, some b, s⟩ = true := by
  simp [admits, okMin, okMax, h2]

theorem not_admits_lo {value a : ℚ} {ob : Option ℚ} {s : ℤ} (h : value < a) :
    admits value ⟨some a, ob, s⟩ = false := by
  simp [admits, okMin, h.not_le]

theorem not_admits_hi {value b : ℚ} {oa : Option ℚ} {s : ℤ} (h : b < value) :
    admits value ⟨oa, some b, s⟩ = false := by
  simp [admits, okMax, h.not_le]

/-! ## Claim theorems -/

/-- C1: `scoreByThresholds` returns the score of the first range in
declaration order whose optional minimum and optional maximum both admit the
value with inclusive bounds (an omitted bound being open-ended), and returns
1 when no range in the table matches. -/
theorem scoreByThresholds_first_match_fallback (value : ℚ) (table : List Range) :
    scoreByThresholds value table
      = ((table.find? (fun t => admits value t)).map Range.score).getD 1
    ∧ ∀ t : Range, admits value t = true ↔
        ((∀ m, t.min = some m → m ≤ value) ∧ (∀ M, t.max = some M → value ≤ M)) := by
  constructor
  · induction table with
    | nil => rfl
    | cons t rest ih =>
      by_cases h : admits value t = true
      · rw [score_cons_pos h, List.find?_cons_of_pos _ h]
        rfl
      · have hf : admits value t = false := by simpa using h
        rw [score_cons_neg hf, List.find?_cons_of_neg _ (by simp [hf]), ih]
  · intro t
    rcases t with ⟨mi, ma, s⟩
    rcases mi with _ | a <;> rcases ma with _ | b <;> simp [admits, okMin, okMax]

/-- C2: maturity is the weighted sum `M1·0.25 + M2·0.15 + M3·0.35 + M4·0.25`
minus exactly 0.5 if and only if the submission is still open and older than
7 days, with no lower clamp; all categories at 5 with no penalty give exactly
5, and a still-open 30-day-old submission gets the weighted sum minus 0.5. -/
theorem maturity_weights_and_staleness_penalty (m1 m2 m3 m4 age : ℚ) (stOpen : Bool) :
    (maturity m1 m2 m3 m4 stOpen age
        = m1 * 0.25 + m2 * 0.15 + m3 * 0.35 + m4 * 0.25
          - (if stOpen = true ∧ age > 7 then 0.5 else 0))
    ∧ (maturity m1 m2 m3 m4 stOpen age
        = m1 * 0.25 + m2 * 0.15 + m3 * 0.35 + m4 * 0.25 - 0.5
        ↔ (stOpen = true ∧ age > 7))
    ∧ maturity 5 5 5 5 false age = 5
    ∧ maturity m1 m2 m3 m4 true 30
        = m1 * 0.25 + m2 * 0.15 + m3 * 0.35 + m4 * 0.25 - 0.5 := by
  refine ⟨rfl, ?_, by norm_num [maturity], by norm_num [maturity]⟩
  constructor
  · intro heq
    by_contra hc
    have h0 : maturity m1 m2 m3 m4 stOpen age
        = m1 * 0.25 + m2 * 0.15 + m3 * 0.35 + m4 * 0.25 := by
      simp [maturity, if_neg hc]
    rw [h0] at heq
    have : (0 : ℚ) = 0.5 := by linarith
    norm_num at this
  · intro hc
    simp [maturity, if_pos hc]

/-- C5: complexity is 5 unconditionally when the functional-change flag is
false; otherwise it is the rounding of the weighted average of the four size
scores with weights 0.20/0.25/0.25/0.30, clamped to `[1, 5]`. -/
theorem complexity_nonfunctional_and_weighted (sCC sAF sAL sLM : ℤ) :
    complexity false sCC sAF sAL sLM = 5
    ∧ complexity true sCC sAF sAL sLM
        = min 5 (max 1 (mathRound
            (((sCC : ℚ) * 0.20 + (sAF : ℚ) * 0.25 + (sAL : ℚ) * 0.25 + (sLM : ℚ) * 0.30)
              / (0.20 + 0.25 + 0.25 + 0.30))))
    ∧ 1 ≤ complexity true sCC sAF sAL sLM
    ∧ complexity true sCC sAF sAL sLM ≤ 5 := by
  have havg : weightedAvg
      [⟨(sCC : ℚ), 0.20⟩, ⟨(sAF : ℚ), 0.25⟩, ⟨(sAL : ℚ), 0.25⟩, ⟨(sLM : ℚ), 0.30⟩]
      = ((sCC : ℚ) * 0.20 + (sAF : ℚ) * 0.25 + (sAL : ℚ) * 0.25 + (sLM : ℚ) * 0.30)
          / (0.20 + 0.25 + 0.25 + 0.30) := by
    simp only [weightedAvg, List.foldl]
    norm_num
  have hc : complexity true sCC sAF sAL sLM
      = min 5 (max 1 (mathRound
          (((sCC : ℚ) * 0.20 + (sAF : ℚ) * 0.25 + (sAL : ℚ) * 0.25 + (sLM : ℚ) * 0.30)
            / (0.20 + 0.25 + 0.25 + 0.30)))) := by
    simp only [complexity, Bool.not_true, Bool.false_eq_true, if_false, havg]
  refine ⟨rfl, hc, ?_, ?_⟩
  · rw [hc]
    exact le_min (by norm_num) (le_max_left 1 _)
  · rw [hc]
    exact min_le_left 5 _

/-- C9: `weightedAvg` of the empty list is 0, and of a single item with any
positive weight it is that item's score regardless of the weight. -/
theorem weightedAvg_empty_and_singleton (score w : ℚ) (hw : 0 < w) :
    weightedAvg [] = 0 ∧ weightedAvg [⟨score, w⟩] = score := by
  have hw0 : w ≠ 0 := ne_of_gt hw
  refine ⟨rfl, ?_⟩
  simp only [weightedAvg, List.foldl, zero_add]
  rw [if_neg hw0, mul_div_assoc, div_self hw0, mul_one]

theorem weightedAvg_singleton_witness :
    weightedAvg [] = 0 ∧ weightedAvg [⟨3, 2⟩] = 3 :=
  weightedAvg_empty_and_singleton 3 2 (by norm_num)

/-- C10: for a complexity level in the `[4, 5)` band, the observations table
scores 3 at zero observations and 4 at any positive count, so the score is
at most 4 and the trailing `{min: 2, score: 5}` range is never selected. -/
theorem observations_complex4_capped (c : ℤ) (n : ℕ) (h1 : 4 ≤ c) (h2 : c < 5) :
    thresholdsObservations c = [⟨none, some 0, 3⟩, ⟨some 1, none, 4⟩, ⟨some 2, none, 5⟩]
    ∧ scoreByThresholds (n : ℚ) (thresholdsObservations c) = (if n = 0 then 3 else 4)
    ∧ scoreByThresholds (n : ℚ) (thresholdsObservations c) ≤ 4 := by
  have htab : thresholdsObservations c
      = [⟨none, some 0, 3⟩, ⟨some 1, none, 4⟩, ⟨some 2, none, 5⟩] := by
    unfold thresholdsObservations
    rw [if_neg (by omega), if_neg (by omega), if_pos (by omega)]
  have hscore : scoreByThresholds (n : ℚ) (thresholdsObservations c) = (if n = 0 then 3 else 4) := by
    rw [htab]
    rcases n with _ | m
    · rw [score_cons_pos (admits_nm (by norm_num))]
      norm_num
    · have hm : (1 : ℚ) ≤ ((m + 1 : ℕ) : ℚ) := by exact_mod_cast Nat.succ_le_succ (Nat.zero_le m)
      rw [score_cons_neg (not_admits_hi (by linarith)), score_cons_pos (admits_mn hm)]
      simp
  refine ⟨htab, hscore, ?_⟩
  rw [hscore]
  split_ifs <;> norm_num

theorem observations_complex4_capped_witness :
    thresholdsObservations 4 = [⟨none, some 0, 3⟩, ⟨some 1, none, 4⟩, ⟨some 2, none, 5⟩]
    ∧ scoreByThresholds ((3 : ℕ) : ℚ) (thresholdsObservations 4) = (if (3 : ℕ) = 0 then 3 else 4)
    ∧ scoreByThresholds ((3 : ℕ) : ℚ) (thresholdsObservations 4) ≤ 4 :=
  observations_complex4_capped 4 3 (by norm_num) (by norm_num)

/-- C6 (counterexample): the simple close-time table does not score 2 on all
of `(0.5, 1]` — the probe 0.50005 lies in that interval yet falls through the
`{min: 0.5001, max: 1}` band to the final `{max: 4}` band and scores 5; and
the complex table has 5 ranges, not 4. -/
theorem closeTime_simple_gap_counterexample :
    ((1 : ℚ) / 2 < 10001 / 20000 ∧ (10001 / 20000 : ℚ) ≤ 1
      ∧ scoreByThresholds (10001 / 20000 : ℚ) (thresholdsCloseTimeHours 2) = 5)
    ∧ (thresholdsCloseTimeHours 4).length = 5 := by
  have hsimple : thresholdsCloseTimeHours 2 = closeTimeSimpleTable := by
    unfold thresholdsCloseTimeHours
    norm_num
  have hcomplex : thresholdsCloseTimeHours 4 = closeTimeComplexTable := by
    unfold thresholdsCloseTimeHours
    norm_num
  refine ⟨⟨by norm_num, by norm_num, ?_⟩, by rw [hcomplex]; rfl⟩
  rw [hsimple]
  unfold closeTimeSimpleTable
  rw [score_cons_neg (not_admits_lo (by norm_num)),
    score_cons_neg (not_admits_hi (by norm_num)),
    score_cons_neg (not_admits_lo (by norm_num)),
    score_cons_neg (not_admits_lo (by norm_num)),
    score_cons_neg (not_admits_lo (by norm_num)),
    score_cons_neg (not_admits_lo (by norm_num)),
    score_cons_pos (admits_nm (by norm_num))]

/-- C6 (amended): the close-time table is selected by complexity `> 3`
(complex) versus `≤ 3` (simple); the complex table has 5 bands; the simple
table special-cases very-short windows so that a value `≤ 0.5` scores 1 and
a value in `[0.5001, 1]` scores 2, while a value strictly between 0.5 and
0.5001 falls through to the final band and scores 5. -/
theorem closeTime_tables_amended (c1 c2 : ℤ) (v : ℚ)
    (hc1 : c1 ≤ 3) (hc2 : 3 < c2) (hv : v ≤ 1) :
    thresholdsCloseTimeHours c2 = closeTimeComplexTable
    ∧ closeTimeComplexTable.length = 5
    ∧ thresholdsCloseTimeHours c1 = closeTimeSimpleTable
    ∧ scoreByThresholds v (thresholdsCloseTimeHours c1)
        = (if v ≤ 1 / 2 then 1 else if 5001 / 10000 ≤ v then 2 else 5) := by
  have ht2 : thresholdsCloseTimeHours c2 = closeTimeComplexTable := by
    unfold thresholdsCloseTimeHours
    rw [if_pos hc2]
  have ht1 : thresholdsCloseTimeHours c1 = closeTimeSimpleTable := by
    unfold thresholdsCloseTimeHours
    rw [if_neg (by omega)]
  refine ⟨ht2, rfl, ht1, ?_⟩
  rw [ht1]
  unfold closeTimeSimpleTable
  rcases le_or_lt v (1 / 2) with h12 | h12
  · rw [score_cons_neg (not_admits_lo (by linarith)),
      score_cons_pos (admits_nm (by linarith)), if_pos h12]
  · rw [score_cons_neg (not_admits_lo (by linarith)),
      score_cons_neg (not_admits_hi (by linarith)),
      score_cons_neg (not_admits_lo (by linarith))]
    rcases le_or_lt (5001 / 10000 : ℚ) v with h51 | h51
    · rw [score_cons_pos (admits_mm (by linarith) hv), if_neg (not_le.mpr h12), if_pos h51]
    · rw [score_cons_neg (not_admits_lo (by linarith)),
        score_cons_neg (not_admits_lo (by linarith)),
        score_cons_neg (not_admits_lo (by linarith)),
        score_cons_pos (admits_nm (by linarith)),
        if_neg (not_le.mpr h12), if_neg (not_le.mpr h51)]

theorem closeTime_tables_amended_witness :
    thresholdsCloseTimeHours 4 = closeTimeComplexTable
    ∧ closeTimeComplexTable.length = 5
    ∧ thresholdsCloseTimeHours 2 = closeTimeSimpleTable
    ∧ scoreByThresholds (3 / 4 : ℚ) (thresholdsCloseTimeHours 2)
        = (if (3 / 4 : ℚ) ≤ 1 / 2 then 1 else if 5001 / 10000 ≤ (3 / 4 : ℚ) then 2 else 5) :=
  closeTime_tables_amended 2 4 (3 / 4) (by norm_num) (by norm_num) (by norm_num)

/-- C7 (counterexample): the fixed tables are not exhaustive — a commit
count of 0 matches no range of the commit-count table (so the defensive
fallback 1 is what `scoreByThresholds` returns there), and each average
table has 0.001-wide gaps: the probes 39.9995 / 59.9995 / 349.9995 /
399.9995 match no range of the respective files/lines tables. -/
theorem threshold_tables_fallback_counterexample :
    (∀ t ∈ thresholdsCommitsCount, admits (0 : ℚ) t = false)
    ∧ scoreByThresholds (0 : ℚ) thresholdsCommitsCount = 1
    ∧ (∀ t ∈ thresholdsAvgFilesPerCommit false, admits (399995 / 10000 : ℚ) t = false)
    ∧ (∀ t ∈ thresholdsAvgFilesPerCommit true, admits (599995 / 10000 : ℚ) t = false)
    ∧ (∀ t ∈ thresholdsAvgLinesPerCommit false, admits (3499995 / 10000 : ℚ) t = false)
    ∧ (∀ t ∈ thresholdsAvgLinesPerCommit true, admits (3999995 / 10000 : ℚ) t = false) := by
  refine ⟨?_, ?_, ?_, ?_, ?_, ?_⟩
  · intro t ht
    simp only [thresholdsCommitsCount, List.mem_cons, List.not_mem_nil, or_false] at ht
    rcases ht with h | h | h | h | h <;> subst h <;>
      exact not_admits_lo (by norm_num)
  · unfold thresholdsCommitsCount
    rw [score_cons_neg (not_admits_lo (by norm_num)),
      score_cons_neg (not_admits_lo (by norm_num)),
      score_cons_neg (not_admits_lo (by norm_num)),
      score_cons_neg (not_admits_lo (by norm_num)),
      score_cons_neg (not_admits_lo (by norm_num))]
    rfl
  · intro t ht
    rw [show thresholdsAvgFilesPerCommit false
        = [⟨some 40, none, 1⟩, ⟨some 30, some 39.999, 2⟩, ⟨some 20, some 29.999, 3⟩,
           ⟨some 15, some 19.999, 4⟩, ⟨none, some 14.999, 5⟩] from rfl] at ht
    simp only [List.mem_cons, List.not_mem_nil, or_false] at ht
    rcases ht with h | h | h | h | h <;> subst h <;>
      first
        | (apply not_admits_lo; norm_num; done)
        | (apply not_admits_hi; norm_num; done)
  · intro t ht
    rw [show thresholdsAvgFilesPerCommit true
        = [⟨some 60, none, 1⟩, ⟨some 50, some 59.999, 2⟩, ⟨some 40, some 49.999, 3⟩,
           ⟨some 35, some 39.999, 4⟩, ⟨none, some 34.999, 5⟩] from rfl] at ht
    simp only [List.mem_cons, List.not_mem_nil, or_false] at ht
    rcases ht with h | h | h | h | h <;> subst h <;>
      first
        | (apply not_admits_lo; norm_num; done)
        | (apply not_admits_hi; norm_num; done)
  · intro t ht
    rw [show thresholdsAvgLinesPerCommit false
        = [⟨some 350, none, 1⟩, ⟨some 250, some 349.999, 2⟩, ⟨some 150, some 249.999, 3⟩,
           ⟨some 100, some 149.999, 4⟩, ⟨none, some 99.999, 5⟩] from rfl] at ht
    simp only [List.mem_cons, List.not_mem_nil, or_false] at ht
    rcases ht with h | h | h | h | h <;> subst h <;>
      first
        | (apply not_admits_lo; norm_num; done)
        | (apply not_admits_hi; norm_num; done)
  · intro t ht
    rw [show thresholdsAvgLinesPerCommit true
        = [⟨some 400, none, 1⟩, ⟨some 300, some 399.999, 2⟩, ⟨some 200, some 299.999, 3⟩,
           ⟨some 150, some 199.999, 4⟩, ⟨none, some 149.999, 5⟩] from rfl] at ht
    simp only [List.mem_cons, List.not_mem_nil, or_false] at ht
    rcases ht with h | h | h | h | h <;> subst h <;>
      first
        | (apply not_admits_lo; norm_num; done)
        | (apply not_admits_hi; norm_num; done)

theorem div1000_ge {k : ℕ} (m : ℕ) (c : ℚ) (h : m ≤ k) (hcm : 1000 * c = (m : ℚ)) :
    c ≤ (k : ℚ) / 1000 := by
  rw [le_div_iff₀ (by norm_num : (0 : ℚ) < 1000)]
  have hk : (m : ℚ) ≤ (k : ℚ) := by exact_mod_cast h
  linarith

theorem div1000_le {k : ℕ} (m : ℕ) (c : ℚ) (h : k ≤ m) (hcm : 1000 * c = (m : ℚ)) :
    (k : ℚ) / 1000 ≤ c := by
  rw [div_le_iff₀ (by norm_num : (0 : ℚ) < 1000)]
  have hk : (k : ℚ) ≤ (m : ℚ) := by exact_mod_cast h
  linarith

/-- C7 (amended): the commit-count table matches every integer count `≥ 1`
(count 0 takes the fallback), and each avg-files / avg-lines table (standard
and legacy) matches every non-negative value with at most three decimal
places — i.e. every multiple of 0.001, so only values inside the 0.001-wide
open gaps between consecutive bands fall through to the fallback. -/
theorem threshold_tables_coverage_amended (n : ℤ) (k : ℕ) (hn : 1 ≤ n) :
    (∃ t ∈ thresholdsCommitsCount, admits (n : ℚ) t = true)
    ∧ (∃ t ∈ thresholdsAvgFilesPerCommit false, admits ((k : ℚ) / 1000) t = true)
    ∧ (∃ t ∈ thresholdsAvgFilesPerCommit true, admits ((k : ℚ) / 1000) t = true)
    ∧ (∃ t ∈ thresholdsAvgLinesPerCommit false, admits ((k : ℚ) / 1000) t = true)
    ∧ (∃ t ∈ thresholdsAvgLinesPerCommit true, admits ((k : ℚ) / 1000) t = true) := by
  refine ⟨?_, ?_, ?_, ?_, ?_⟩
  · rcases le_or_lt 8 n with h1 | h1
    · exact ⟨⟨some 8, none, 1⟩, by simp [thresholdsCommitsCount],
        admits_mn (by exact_mod_cast h1)⟩
    rcases le_or_lt 6 n with h2 | h2
    · refine ⟨⟨some 6, some 7, 2⟩, by simp [thresholdsCommitsCount], admits_mm ?_ ?_⟩
      · exact_mod_cast h2
      · exact_mod_cast (show n ≤ 7 by omega)
    rcases le_or_lt 5 n with h3 | h3
    · refine ⟨⟨some 5, some 5, 3⟩, by simp [thresholdsCommitsCount], admits_mm ?_ ?_⟩
      · exact_mod_cast h3
      · exact_mod_cast (show n ≤ 5 by omega)
    rcases le_or_lt 3 n with h4 | h4
    · refine ⟨⟨some 3, some 4, 4⟩, by simp [thresholdsCommitsCount], admits_mm ?_ ?_⟩
      · exact_mod_cast h4
      · exact_mod_cast (show n ≤ 4 by omega)
    · refine ⟨⟨some 1, some 2, 5⟩, by simp [thresholdsCommitsCount], admits_mm ?_ ?_⟩
      · exact_mod_cast hn
      · exact_mod_cast (show n ≤ 2 by omega)
  · rcases le_or_lt 40000 k with h1 | h1
    · exact ⟨⟨some 40, none, 1⟩, by simp [thresholdsAvgFilesPerCommit],
        admits_mn (div1000_ge 40000 40 h1 (by norm_num))⟩
    rcases le_or_lt 30000 k with h2 | h2
    · exact ⟨⟨some 30, some 39.999, 2⟩, by simp [thresholdsAvgFilesPerCommit],
        admits_mm (div1000_ge 30000 30 h2 (by norm_num))
          (div1000_le 39999 39.999 (by omega) (by norm_num))⟩
    rcases le_or_lt 20000 k with h3 | h3
    · exact ⟨⟨some 20, some 29.999, 3⟩, by simp [thresholdsAvgFilesPerCommit],
        admits_mm (div1000_ge 20000 20 h3 (by norm_num))
          (div1000_le 29999 29.999 (by omega) (by norm_num))⟩
    rcases le_or_lt 15000 k with h4 | h4
    · exact ⟨⟨some 15, some 19.999, 4⟩, by simp [thresholdsAvgFilesPerCommit],
        admits_mm (div1000_ge 15000 15 h4 (by norm_num))
          (div1000_le 19999 19.999 (by omega) (by norm_num))⟩
    · exact ⟨⟨none, some 14.999, 5⟩, by simp [thresholdsAvgFilesPerCommit],
        admits_nm (div1000_le 14999 14.999 (by omega) (by norm_num))⟩
  · rcases le_or_lt 60000 k with h1 | h1
    · exact ⟨⟨some 60, none, 1⟩, by simp [thresholdsAvgFilesPerCommit],
        admits_mn (div1000_ge 60000 60 h1 (by norm_num))⟩
    rcases le_or_lt 50000 k with h2 | h2
    · exact ⟨⟨some 50, some 59.999, 2⟩, by simp [thresholdsAvgFilesPerCommit],
        admits_mm (div1000_ge 50000 50 h2 (by norm_num))
          (div1000_le 59999 59.999 (by omega) (by norm_num))⟩
    rcases le_or_lt 40000 k with h3 | h3
    · exact ⟨⟨some 40, some 49.999, 3⟩, by simp [thresholdsAvgFilesPerCommit],
        admits_mm (div1000_ge 40000 40 h3 (by norm_num))
          (div1000_le 49999 49.999 (by omega) (by norm_num))⟩
    rcases le_or_lt 35000 k with h4 | h4
    · exact ⟨⟨some 35, some 39.999, 4⟩, by simp [thresholdsAvgFilesPerCommit],
        admits_mm (div1000_ge 35000 35 h4 (by norm_num))
          (div1000_le 39999 39.999 (by omega) (by norm_num))⟩
    · exact ⟨⟨none, some 34.999, 5⟩, by simp [thresholdsAvgFilesPerCommit],
        admits_nm (div1000_le 34999 34.999 (by omega) (by norm_num))⟩
  · rcases le_or_lt 350000 k with h1 | h1
    · exact ⟨⟨some 350, none, 1⟩, by simp [thresholdsAvgLinesPerCommit],
        admits_mn (div1000_ge 350000 350 h1 (by norm_num))⟩
    rcases le_or_lt 250000 k with h2 | h2
    · exact ⟨⟨some 250, some 349.999, 2⟩, by simp [thresholdsAvgLinesPerCommit],
        admits_mm (div1000_ge 250000 250 h2 (by norm_num))
          (div1000_le 349999 349.999 (by omega) (by norm_num))⟩
    rcases le_or_lt 150000 k with h3 | h3
    · exact ⟨⟨some 150, some 249.999, 3⟩, by simp [thresholdsAvgLinesPerCommit],
        admits_mm (div1000_ge 150000 150 h3 (by norm_num))
          (div1000_le 249999 249.999 (by omega) (by norm_num))⟩
    rcases le_or_lt 100000 k with h4 | h4
    · exact ⟨⟨some 100, some 149.999, 4⟩, by simp [thresholdsAvgLinesPerCommit],
        admits_mm (div1000_ge 100000 100 h4 (by norm_num))
          (div1000_le 149999 149.999 (by omega) (by norm_num))⟩
    · exact ⟨⟨none, some 99.999, 5⟩, by simp [thresholdsAvgLinesPerCommit],
        admits_nm (div1000_le 99999 99.999 (by omega) (by norm_num))⟩
  · rcases le_or_lt 400000 k with h1 | h1
    · exact ⟨⟨some 400, none, 1⟩, by simp [thresholdsAvgLinesPerCommit],
        admits_mn (div1000_ge 400000 400 h1 (by norm_num))⟩
    rcases le_or_lt 300000 k with h2 | h2
    · exact ⟨⟨some 300, some 399.999, 2⟩, by simp [thresholdsAvgLinesPerCommit],
        admits_mm (div1000_ge 300000 300 h2 (by norm_num))
          (div1000_le 399999 399.999 (by omega) (by norm_num))⟩
    rcases le_or_lt 200000 k with h3 | h3
    · exact ⟨⟨some 200, some 299.999, 3⟩, by simp [thresholdsAvgLinesPerCommit],
        admits_mm (div1000_ge 200000 200 h3 (by norm_num))
          (div1000_le 299999 299.999 (by omega) (by norm_num))⟩
    rcases le_or_lt 150000 k with h4 | h4
    · exact ⟨⟨some 150, some 199.999, 4⟩, by simp [thresholdsAvgLinesPerCommit],
        admits_mm (div1000_ge 150000 150 h4 (by norm_num))
          (div1000_le 199999 199.999 (by omega) (by norm_num))⟩
    · exact ⟨⟨none, some 149.999, 5⟩, by simp [thresholdsAvgLinesPerCommit],
        admits_nm (div1000_le 149999 149.999 (by omega) (by norm_num))⟩

theorem threshold_tables_coverage_amended_witness :
    (∃ t ∈ thresholdsCommitsCount, admits ((3 : ℤ) : ℚ) t = true)
    ∧ (∃ t ∈ thresholdsAvgFilesPerCommit false, admits (((12345 : ℕ) : ℚ) / 1000) t = true)
    ∧ (∃ t ∈ thresholdsAvgFilesPerCommit true, admits (((12345 : ℕ) : ℚ) / 1000) t = true)
    ∧ (∃ t ∈ thresholdsAvgLinesPerCommit false, admits (((12345 : ℕ) : ℚ) / 1000) t = true)
    ∧ (∃ t ∈ thresholdsAvgLinesPerCommit true, admits (((12345 : ℕ) : ℚ) / 1000) t = true) :=
  threshold_tables_coverage_amended 3 12345 (by norm_num)

/-! ## Clock lemmas -/

theorem clamp_diff_eq_overlap (curMin nextMin eff we : ℤ) :
    (if clamp curMin eff we < clamp nextMin eff we
      then clamp nextMin eff we - clamp curMin eff we else 0)
    = max 0 (min nextMin we - max curMin eff) := by
  unfold clamp
  simp only [max_def, min_def]
  split_ifs <;> omega

theorem step_eq_overlap (tzf : ℤ → ZonedParts) (E we endUtc cur : ℤ) :
    (if isWeekday (tzf cur).weekday then
        (if clamp (minutesSinceMidnight (tzf cur).hour (tzf cur).minute) E we
            < clamp (minutesSinceMidnight (tzf (min endUtc (cur + 3600000))).hour
                (tzf (min endUtc (cur + 3600000))).minute) E we
          then clamp (minutesSinceMidnight (tzf (min endUtc (cur + 3600000))).hour
                (tzf (min endUtc (cur + 3600000))).minute) E we
              - clamp (minutesSinceMidnight (tzf cur).hour (tzf cur).minute) E we
          else 0)
      else 0)
    = sliceOverlap tzf E we endUtc cur := by
  unfold sliceOverlap localMinutes
  by_cases hw : isWeekday (tzf cur).weekday
  · rw [if_pos hw, if_pos hw]
    exact clamp_diff_eq_overlap _ _ _ _
  · rw [if_neg hw, if_neg hw]

theorem bmbLoop_eq_slices (tzf : ℤ → ZonedParts) (ws we cutoffMin : ℤ) (siw : Bool)
    (endUtc : ℤ) :
    ∀ (fuel : ℕ) (cur total : ℤ),
      bmbLoop tzf ws we cutoffMin siw endUtc fuel cur total
        = total + ((sliceStarts endUtc fuel cur).map
            (sliceOverlap tzf (if siw then ws else max ws cutoffMin) we endUtc)).sum := by
  intro fuel
  induction fuel with
  | zero =>
    intro cur total
    simp [bmbLoop, sliceStarts]
  | succ n ih =>
    intro cur total
    by_cases h : cur < endUtc
    · simp only [bmbLoop, sliceStarts, h, if_true]
      rw [ih, List.map_cons, List.sum_cons, ← step_eq_overlap tzf
        (if siw then ws else max ws cutoffMin) we endUtc cur]
      ring
    · simp [bmbLoop, sliceStarts, h]

/-- C3: when the start instant falls outside the work window (non-work day,
or work day but outside the configured hours) and the end instant's local
time-of-day is at or before the morning cutoff, `businessMinutesBetween`
returns the entire elapsed wall-clock duration in (rounded) minutes; in
particular it returns exactly `k` minutes for a span of `k` whole minutes. -/
theorem businessMinutes_carveOut (tzf : ℤ → ZonedParts) (ws we cutoffMin startUtc endUtc : ℤ)
    (h1 : startUtc < endUtc)
    (h2 : startsInWork tzf ws we startUtc = false)
    (h3 : localMinutes tzf endUtc ≤ cutoffMin) :
    businessMinutesBetween tzf ws we cutoffMin startUtc endUtc
      = mathRound (((endUtc - startUtc : ℤ) : ℚ) / 60000)
    ∧ ∀ k : ℤ, endUtc - startUtc = 60000 * k →
        businessMinutesBetween tzf ws we cutoffMin startUtc endUtc = k := by
  have hmain : businessMinutesBetween tzf ws we cutoffMin startUtc endUtc
      = mathRound (((endUtc - startUtc : ℤ) : ℚ) / 60000) := by
    unfold businessMinutesBetween
    rw [if_neg (by omega), if_pos (by simp [h2, h3])]
  refine ⟨hmain, ?_⟩
  intro k hk
  rw [hmain, hk]
  have hq : (((60000 * k : ℤ) : ℚ)) / 60000 = (k : ℚ) := by
    push_cast
    field_simp
  rw [hq]
  unfold mathRound
  rw [Int.floor_eq_iff]
  constructor
  · linarith
  · linarith

theorem businessMinutes_carveOut_witness :
    businessMinutesBetween (fixedOffsetTZ 0) 540 1080 450 158400000 198000000 = 660 :=
  (businessMinutes_carveOut (fixedOffsetTZ 0) 540 1080 450 158400000 198000000
    (by norm_num) (by decide) (by decide)).2 660 (by norm_num)

/-- C4: when the carve-out rule does not apply, `businessMinutesBetween`
equals the sum over hour-sized (or smaller, at the tail) slices of the
clamped overlap of each slice with `[effective-work-start, work-end]` on
slices whose local weekday is Monday–Friday, where the effective work start
is the work-start minute raised to the cutoff minute exactly when the
original start instant was outside the work window (fixed for the whole
walk), non-work-day slices contributing zero. -/
theorem businessMinutes_slice_walk (tzf : ℤ → ZonedParts) (ws we cutoffMin startUtc endUtc : ℤ)
    (hnc : startsInWork tzf ws we startUtc = true ∨ cutoffMin < localMinutes tzf endUtc) :
    businessMinutesBetween tzf ws we cutoffMin startUtc endUtc
      = specBusinessMinutes tzf ws we cutoffMin startUtc endUtc := by
  unfold businessMinutesBetween specBusinessMinutes
  by_cases hle : endUtc ≤ startUtc
  · rw [if_pos hle]
    have h0 : (endUtc - startUtc).toNat = 0 := by omega
    rw [h0]
    simp [sliceStarts]
  · have hcond : ¬ ((!startsInWork tzf ws we startUtc
        && decide (localMinutes tzf endUtc ≤ cutoffMin)) = true) := by
      rcases hnc with h | h
      · simp [h]
      · simp [not_le.mpr h]
    rw [if_neg hle, if_neg hcond, bmbLoop_eq_slices]
    simp

theorem businessMinutes_slice_walk_witness :
    businessMinutesBetween (fixedOffsetTZ 0) 540 1080 450 381600000 388800000
      = specBusinessMinutes (fixedOffsetTZ 0) 540 1080 450 381600000 388800000
    ∧ businessMinutesBetween (fixedOffsetTZ 0) 540 1080 450 381600000 388800000 = 120 :=
  ⟨businessMinutes_slice_walk (fixedOffsetTZ 0) 540 1080 450 381600000 388800000
    (Or.inl (by decide)), by decide⟩

/-! ## Score and category bounds (C8) -/

theorem scoreByThresholds_bounds (v : ℚ) (table : List Range)
    (h : ∀ t ∈ table, 1 ≤ t.score ∧ t.score ≤ 5) :
    1 ≤ scoreByThresholds v table ∧ scoreByThresholds v table ≤ 5 := by
  induction table with
  | nil =>
    refine ⟨le_refl 1, ?_⟩
    show (1 : ℤ) ≤ 5
    norm_num
  | cons t rest ih =>
    rw [scoreByThresholds_cons]
    split_ifs with hadm
    · exact h t (List.mem_cons_self t rest)
    · exact ih (fun u hu => h u (List.mem_cons_of_mem t hu))

theorem table_scores_commits : ∀ t ∈ thresholdsCommitsCount, 1 ≤ t.score ∧ t.score ≤ 5 := by
  decide

theorem table_scores_files (legacy : Bool) :
    ∀ t ∈ thresholdsAvgFilesPerCommit legacy, 1 ≤ t.score ∧ t.score ≤ 5 := by
  cases legacy <;> decide

theorem table_scores_lines (legacy : Bool) :
    ∀ t ∈ thresholdsAvgLinesPerCommit legacy, 1 ≤ t.score ∧ t.score ≤ 5 := by
  cases legacy <;> decide

theorem table_scores_linesModified (legacy : Bool) :
    ∀ t ∈ thresholdsLinesModified legacy, 1 ≤ t.score ∧ t.score ≤ 5 := by
  cases legacy <;> decide

theorem table_scores_closeTime (c : ℤ) :
    ∀ t ∈ thresholdsCloseTimeHours c, 1 ≤ t.score ∧ t.score ≤ 5 := by
  unfold thresholdsCloseTimeHours
  split_ifs <;> decide

theorem table_scores_observations (c : ℤ) :
    ∀ t ∈ thresholdsObservations c, 1 ≤ t.score ∧ t.score ≤ 5 := by
  unfold thresholdsObservations
  split_ifs <;> decide

theorem M1_bounds {a b c d : ℤ}
    (ha1 : 1 ≤ a) (ha5 : a ≤ 5) (hb1 : 1 ≤ b) (hb5 : b ≤ 5)
    (hc1 : 1 ≤ c) (hc5 : c ≤ 5) (hd1 : 1 ≤ d) (hd5 : d ≤ 5) :
    1 ≤ M1 a b c d ∧ M1 a b c d ≤ 5 := by
  have qa1 : (1 : ℚ) ≤ (a : ℚ) := by exact_mod_cast ha1
  have qa5 : (a : ℚ) ≤ 5 := by exact_mod_cast ha5
  have qb1 : (1 : ℚ) ≤ (b : ℚ) := by exact_mod_cast hb1
  have qb5 : (b : ℚ) ≤ 5 := by exact_mod_cast hb5
  have qc1 : (1 : ℚ) ≤ (c : ℚ) := by exact_mod_cast hc1
  have qc5 : (c : ℚ) ≤ 5 := by exact_mod_cast hc5
  have qd1 : (1 : ℚ) ≤ (d : ℚ) := by exact_mod_cast hd1
  have qd5 : (d : ℚ) ≤ 5 := by exact_mod_cast hd5
  unfold M1 weightedAvg
  simp only [List.foldl]
  norm_num
  constructor <;> linarith

theorem M2_bounds {a b c : ℤ}
    (ha1 : 1 ≤ a) (ha5 : a ≤ 5) (hb1 : 1 ≤ b) (hb5 : b ≤ 5)
    (hc1 : 1 ≤ c) (hc5 : c ≤ 5) :
    1 ≤ M2 a b c ∧ M2 a b c ≤ 5 := by
  have qa1 : (1 : ℚ) ≤ (a : ℚ) := by exact_mod_cast ha1
  have qa5 : (a : ℚ) ≤ 5 := by exact_mod_cast ha5
  have qb1 : (1 : ℚ) ≤ (b : ℚ) := by exact_mod_cast hb1
  have qb5 : (b : ℚ) ≤ 5 := by exact_mod_cast hb5
  have qc1 : (1 : ℚ) ≤ (c : ℚ) := by exact_mod_cast hc1
  have qc5 : (c : ℚ) ≤ 5 := by exact_mod_cast hc5
  unfold M2 weightedAvg
  simp only [List.foldl]
  norm_num
  constructor <;> linarith

theorem M3_bounds {a b : ℤ}
    (ha1 : 1 ≤ a) (ha5 : a ≤ 5) (hb1 : 1 ≤ b) (hb5 : b ≤ 5) :
    1 ≤ M3 a b ∧ M3 a b ≤ 5 := by
  have qa1 : (1 : ℚ) ≤ (a : ℚ) := by exact_mod_cast ha1
  have qa5 : (a : ℚ) ≤ 5 := by exact_mod_cast ha5
  have qb1 : (1 : ℚ) ≤ (b : ℚ) := by exact_mod_cast hb1
  have qb5 : (b : ℚ) ≤ 5 := by exact_mod_cast hb5
  unfold M3 weightedAvg
  simp only [List.foldl]
  norm_num
  constructor <;> linarith

theorem M4_bounds {a : ℤ} (ha1 : 1 ≤ a) (ha5 : a ≤ 5) :
    1 ≤ M4 a ∧ M4 a ≤ 5 := by
  have qa1 : (1 : ℚ) ≤ (a : ℚ) := by exact_mod_cast ha1
  have qa5 : (a : ℚ) ≤ 5 := by exact_mod_cast ha5
  unfold M4 weightedAvg
  simp only [List.foldl]
  norm_num
  constructor <;> linarith

/-- C8: for every input, each per-signal score (commit count, avg files, avg
lines, commit standard, lines modified, close time, observations, approvals,
declined, branch) is an integer in `[1, 5]` before weighting, and each
category aggregate M1–M4 of such scores is a rational in `[1, 5]`. -/
theorem signal_scores_and_categories_bounded
    (legacy branchOk : Bool) (c : ℤ)
    (totalCommits approvalsCount declinedThisPr observations : ℕ)
    (avgFiles avgLines linesModified commitStandardPct closeHours : ℚ) :
    (1 ≤ s_commitsCount totalCommits ∧ s_commitsCount totalCommits ≤ 5)
    ∧ (1 ≤ s_avgFiles legacy avgFiles ∧ s_avgFiles legacy avgFiles ≤ 5)
    ∧ (1 ≤ s_avgLines legacy avgLines ∧ s_avgLines legacy avgLines ≤ 5)
    ∧ (1 ≤ s_commitStandard commitStandardPct ∧ s_commitStandard commitStandardPct ≤ 5)
    ∧ (1 ≤ s_linesModified legacy linesModified ∧ s_linesModified legacy linesModified ≤ 5)
    ∧ (1 ≤ s_closeTime c closeHours ∧ s_closeTime c closeHours ≤ 5)
    ∧ (1 ≤ s_observations c observations ∧ s_observations c observations ≤ 5)
    ∧ (1 ≤ s_approvals approvalsCount ∧ s_approvals approvalsCount ≤ 5)
    ∧ (1 ≤ s_declined declinedThisPr ∧ s_declined declinedThisPr ≤ 5)
    ∧ (1 ≤ s_branch branchOk ∧ s_branch branchOk ≤ 5)
    ∧ (1 ≤ M1 (s_commitsCount totalCommits) (s_avgFiles legacy avgFiles)
          (s_avgLines legacy avgLines) (s_commitStandard commitStandardPct)
        ∧ M1 (s_commitsCount totalCommits) (s_avgFiles legacy avgFiles)
          (s_avgLines legacy avgLines) (s_commitStandard commitStandardPct) ≤ 5)
    ∧ (1 ≤ M2 (s_approvals approvalsCount) (s_declined declinedThisPr) (s_branch branchOk)
        ∧ M2 (s_approvals approvalsCount) (s_declined declinedThisPr) (s_branch branchOk) ≤ 5)
    ∧ (1 ≤ M3 (s_closeTime c closeHours) (s_linesModified legacy linesModified)
        ∧ M3 (s_closeTime c closeHours) (s_linesModified legacy linesModified) ≤ 5)
    ∧ (1 ≤ M4 (s_observations c observations) ∧ M4 (s_observations c observations) ≤ 5) := by
  have hCC := scoreByThresholds_bounds (totalCommits : ℚ) _ table_scores_commits
  have hAF := scoreByThresholds_bounds avgFiles _ (table_scores_files legacy)
  have hAL := scoreByThresholds_bounds avgLines _ (table_scores_lines legacy)
  have hLM := scoreByThresholds_bounds linesModified _ (table_scores_linesModified legacy)
  have hCT := scoreByThresholds_bounds closeHours _ (table_scores_closeTime c)
  have hOB := scoreByThresholds_bounds (observations : ℚ) _ (table_scores_observations c)
  have hCS : 1 ≤ s_commitStandard commitStandardPct ∧ s_commitStandard commitStandardPct ≤ 5 := by
    unfold s_commitStandard
    split_ifs <;> norm_num
  have hAP : 1 ≤ s_approvals approvalsCount ∧ s_approvals approvalsCount ≤ 5 := by
    unfold s_approvals
    split_ifs <;> norm_num
  have hDE : 1 ≤ s_declined declinedThisPr ∧ s_declined declinedThisPr ≤ 5 := by
    unfold s_declined
    split_ifs <;> norm_num
  have hBR : 1 ≤ s_branch branchOk ∧ s_branch branchOk ≤ 5 := by
    unfold s_branch
    split_ifs <;> norm_num
  exact ⟨hCC, hAF, hAL, hCS, hLM, hCT, hOB, hAP, hDE, hBR,
    M1_bounds hCC.1 hCC.2 hAF.1 hAF.2 hAL.1 hAL.2 hCS.1 hCS.2,
    M2_bounds hAP.1 hAP.2 hDE.1 hDE.2 hBR.1 hBR.2,
    M3_bounds hCT.1 hCT.2 hLM.1 hLM.2,
    M4_bounds hOB.1 hOB.2⟩

end PRMetrics
